import Mathlib

/-!
Verification development for `slabtop.c`, an interactive terminal monitor for
kernel slab-allocator statistics.  The definitions below are a shallow
embedding of the program's state and control flow:

* `set_sort_item` embeds the sort-key resolution switch (slabtop.c:130-157);
* `term_resize` embeds the geometry tracker (slabtop.c:80-91);
* `sigint_handler` embeds the interrupt handler (slabtop.c:93-96);
* `detailRows` embeds the data-row render loop of the interactive cycle
  (slabtop.c:349-350);
* `cycleBody` / `mainLoop` / `mainRun` embed the do-while event loop of
  `main` (slabtop.c:314-373), with the external collector's results
  (fill count, sort success, summary-chain success) and the bounded wait's
  outcome supplied as per-cycle inputs;
* `parse_one` / `parse_opts` embed the option parsing (slabtop.c:159-194).
-/

namespace Slabtop

/-- The `enum slabnode_item` values used by slabtop (the ten sortable fields). -/
inductive SlabnodeItem where
  | OBJS
  | AOBJS
  | USE
  | OBJ_SIZE
  | SLABS
  | OBJS_PER_SLAB
  | SIZE
  | NAME
  | PAGES_PER_SLAB
  | ASLABS
deriving DecidableEq, Repr

/-- `#define DEFAULT_SORT PROCPS_SLABNODE_OBJS` (slabtop.c:47). -/
def DEFAULT_SORT : SlabnodeItem := SlabnodeItem.OBJS

/-- C's `tolower` on a byte value, ASCII/C locale. -/
def tolower (c : Nat) : Nat :=
  if 65 ≤ c ∧ c ≤ 90 then c + 32 else c

/-- ASCII `toupper` on a byte value (used only to state case-insensitivity). -/
def toupper (c : Nat) : Nat :=
  if 97 ≤ c ∧ c ≤ 122 then c - 32 else c

/-- `set_sort_item` (slabtop.c:130-157): `switch (tolower(key))` over the
recognized sort characters; `default:` returns `DEFAULT_SORT`.
Character codes: n=110 o=111 a=97 s=115 b=98 p=112 l=108 v=118 c=99 u=117. -/
def set_sort_item (key : Nat) : SlabnodeItem :=
  let k := tolower key
  if k = 110 then SlabnodeItem.NAME
  else if k = 111 then SlabnodeItem.OBJS
  else if k = 97 then SlabnodeItem.AOBJS
  else if k = 115 then SlabnodeItem.OBJ_SIZE
  else if k = 98 then SlabnodeItem.OBJS_PER_SLAB
  else if k = 112 then SlabnodeItem.PAGES_PER_SLAB
  else if k = 108 then SlabnodeItem.SLABS
  else if k = 118 then SlabnodeItem.ASLABS
  else if k = 99 then SlabnodeItem.SIZE
  else if k = 117 then SlabnodeItem.USE
  else DEFAULT_SORT

/-- Whether a byte (after case folding) is one of the ten recognized sort
characters of the `switch` in `set_sort_item`. -/
def recognizedSortChar (c : Nat) : Bool :=
  let k := tolower c
  k = 110 || k = 111 || k = 97 || k = 115 || k = 98 ||
  k = 112 || k = 108 || k = 118 || k = 99 || k = 117

/-- `term_resize` (slabtop.c:80-91).  The `ioctl(TIOCGWINSZ)` query is
modelled as `none` on failure and `some (ws_col, ws_row)` on success; the
function returns the new `(Cols, Rows)` globals:
`if (ioctl(...) != -1 && ws.ws_row > 10) { Cols = ws_col; Rows = ws_row; }
 else { Cols = 80; Rows = 24; }`. -/
def term_resize (query : Option (Nat × Nat)) : Nat × Nat :=
  match query with
  | some (ws_col, ws_row) =>
      if ws_row > 10 then (ws_col, ws_row) else (80, 24)
  | none => (80, 24)

/-- Fuel-indexed embedding of the render loop
`for (i = 0; i < Rows - 8 && i < nr_slabs; i++) print_details(v[i]);`
(slabtop.c:349-350).  `Rows` is promoted to `int`, so the bound `Rows - 8`
is signed arithmetic; the result counts the `print_details` calls. -/
def detailLoopGo (rows nrSlabs : Int) : Nat → Nat → Nat
  | 0, _ => 0
  | fuel + 1, i =>
      if (i : Int) < rows - 8 ∧ (i : Int) < nrSlabs then
        detailLoopGo rows nrSlabs fuel (i + 1) + 1
      else 0

/-- Number of data rows printed by the interactive render loop at
slabtop.c:349-350, for screen height `rows` and live count `nrSlabs`. -/
def detailRows (rows nrSlabs : Int) : Nat :=
  detailLoopGo rows nrSlabs nrSlabs.toNat 0

theorem detailLoopGo_eq (rows nrSlabs : Int) :
    ∀ (fuel i : Nat), nrSlabs.toNat ≤ fuel + i →
      detailLoopGo rows nrSlabs fuel i = (min (rows - 8) nrSlabs).toNat - i := by
  intro fuel
  induction fuel with
  | zero =>
      intro i h
      have hmin : min (rows - 8) nrSlabs ≤ nrSlabs := min_le_right _ _
      simp only [detailLoopGo]
      omega
  | succ n ih =>
      intro i h
      have hmin₁ : min (rows - 8) nrSlabs ≤ rows - 8 := min_le_left _ _
      have hmin₂ : min (rows - 8) nrSlabs ≤ nrSlabs := min_le_right _ _
      have hmin₃ : min (rows - 8) nrSlabs = rows - 8 ∨
          min (rows - 8) nrSlabs = nrSlabs := min_choice _ _
      simp only [detailLoopGo]
      by_cases hc : (i : Int) < rows - 8 ∧ (i : Int) < nrSlabs
      · rw [if_pos hc]
        rw [ih (i + 1) (by omega)]
        omega
      · rw [if_neg hc]
        push_neg at hc
        omega

theorem detailRows_eq (rows nrSlabs : Int) :
    detailRows rows nrSlabs = (min (rows - 8) nrSlabs).toNat := by
  have h := detailLoopGo_eq rows nrSlabs nrSlabs.toNat 0 (by omega)
  simpa [detailRows] using h

/-- The mutable globals read and written by the event loop: `Delay` (a C
`long`), `Sort_item`, and the geometry globals `Cols`/`Rows`. -/
structure State where
  delay : Int
  sortItem : SlabnodeItem
  cols : Nat
  rows : Nat
deriving DecidableEq, Repr

/-- `sigint_handler` (slabtop.c:93-96): its body is exactly `Delay = 0;`. -/
def sigint_handler (s : State) : State :=
  { s with delay := 0 }

/-- Outcome of the bounded wait (`select` on stdin with timeout `Delay`,
slabtop.c:353-363): the timeout elapsed with no input (`select(...) <= 0`),
a byte was read, or `read` failed to return exactly one byte
(end-of-stream or error). -/
inductive WaitOutcome where
  | timeout
  | byte (c : Nat)
  | readFail
deriving DecidableEq, Repr

/-- The per-cycle environment of one iteration of the do-while loop:
the collector's `procps_slabnode_chains_fill` result (`nr_slabs`, negative on
error), whether `procps_slabnode_chains_sort` succeeded (non-NULL), whether
`procps_slabs_getchain` inside `print_summary` succeeded, the bounded wait's
outcome, and whether SIGINT was delivered during the wait of this cycle. -/
structure CycleInput where
  fillResult : Int
  sortOk : Bool
  summaryOk : Bool
  wait : WaitOutcome
  sigintDuringWait : Bool
deriving DecidableEq, Repr

/-- Effect of an asynchronous SIGINT delivered during this cycle's wait. -/
def applySig (s : State) (inp : CycleInput) : State :=
  if inp.sigintDuringWait then sigint_handler s else s

/-- Result of one iteration of the do-while body: updated globals, updated
`rc`, whether the body executed `break`, whether it exited the process via
`xerrx` (skipping the code after the loop), and what it rendered
(summary printed, header printed, number of data rows printed). -/
structure CycleOut where
  sOut : State
  rcOut : Int
  brk : Bool
  fatal : Bool
  printedSummary : Bool
  printedHeader : Bool
  printedRows : Nat
deriving DecidableEq, Repr

/-- `EXIT_SUCCESS`. -/
def EXIT_SUCCESS : Int := 0

/-- `EXIT_FAILURE`. -/
def EXIT_FAILURE : Int := 1

/-- One iteration of the do-while body of `main` (slabtop.c:314-363).
Order, as in the source: `chains_fill` (error: warn, `rc = EXIT_FAILURE`,
`break`); `chains_sort` (error: likewise); in one-shot mode `print_summary`
(whose `getchain` failure calls `xerrx`, exiting the process), headings, all
`nr_slabs` rows, `break`; otherwise `print_summary`, headings, the clipped
row loop, then the bounded wait: on readable input, `read` failure or
`'Q'`/`'q'` executes `break`, any other byte stores `set_sort_item(c)` into
`Sort_item`; SIGINT during the wait sets `Delay` to 0 and nothing else. -/
def cycleBody (runOnce : Bool) (s : State) (rc : Int) (inp : CycleInput) :
    CycleOut :=
  if inp.fillResult < 0 then
    ⟨s, EXIT_FAILURE, true, false, false, false, 0⟩
  else if inp.sortOk = false then
    ⟨s, EXIT_FAILURE, true, false, false, false, 0⟩
  else if runOnce then
    if inp.summaryOk = false then
      ⟨s, EXIT_FAILURE, false, true, false, false, 0⟩
    else
      ⟨s, rc, true, false, true, true, inp.fillResult.toNat⟩
  else if inp.summaryOk = false then
    ⟨s, EXIT_FAILURE, false, true, false, false, 0⟩
  else
    let rows := detailRows (s.rows : Int) inp.fillResult
    match inp.wait with
    | WaitOutcome.timeout =>
        ⟨applySig s inp, rc, false, false, true, true, rows⟩
    | WaitOutcome.readFail =>
        ⟨applySig s inp, rc, true, false, true, true, rows⟩
    | WaitOutcome.byte c =>
        if c = 81 ∨ c = 113 then
          ⟨applySig s inp, rc, true, false, true, true, rows⟩
        else
          ⟨{ applySig s inp with sortItem := set_sort_item c }, rc,
            false, false, true, true, rows⟩

/-- Aggregate result of running the do-while loop over a script of cycle
inputs: how many cycles were entered (each entry performs exactly one
`chains_fill` fetch), the final `rc`, whether the process exited via `xerrx`
from inside a cycle, the final globals, and the per-cycle render log. -/
structure RunOut where
  fetches : Nat
  rc : Int
  fatal : Bool
  finalState : State
  log : List (Bool × Bool × Nat)
deriving DecidableEq, Repr

/-- The do-while loop of `main` (slabtop.c:314-365): run the body, stop on
`break` or `xerrx`, otherwise repeat `while (Delay)` — i.e. while the
(possibly signal-cleared) `Delay` is nonzero.  The script lists the
per-cycle environments; an exhausted script ends the run. -/
def mainLoop (runOnce : Bool) : State → Int → List CycleInput → RunOut
  | s, rc, [] => ⟨0, rc, false, s, []⟩
  | s, rc, inp :: rest =>
      let o := cycleBody runOnce s rc inp
      let entry := (o.printedSummary, o.printedHeader, o.printedRows)
      if o.fatal then ⟨1, o.rcOut, true, o.sOut, [entry]⟩
      else if o.brk then ⟨1, o.rcOut, false, o.sOut, [entry]⟩
      else if o.sOut.delay ≠ 0 then
        let r := mainLoop runOnce o.sOut o.rcOut rest
        ⟨r.fetches + 1, r.rc, r.fatal, r.finalState, entry :: r.log⟩
      else ⟨1, o.rcOut, false, o.sOut, [entry]⟩

/-- Observable outcome of the whole of `main` after the loop
(slabtop.c:367-373): exit status, and whether the terminal-restore code
(`tcsetattr(STDIN_FILENO, TCSAFLUSH, &Saved_tty)` plus `endwin()`) ran.
An exit via `xerrx` inside a cycle terminates the process at once, so the
restore code after the loop never runs on that path. -/
structure ProgOut where
  rc : Int
  terminalRestored : Bool
  fetches : Nat
  log : List (Bool × Bool × Nat)
deriving DecidableEq, Repr

/-- `main` from loop entry to process exit, in interactive (`runOnce =
false`) or one-shot mode: the restore code at slabtop.c:367-371 runs only
when the loop is left normally and the mode is interactive. -/
def mainRun (runOnce : Bool) (s : State) (script : List CycleInput) :
    ProgOut :=
  let r := mainLoop runOnce s EXIT_SUCCESS script
  if r.fatal then ⟨r.rc, false, r.fetches, r.log⟩
  else ⟨r.rc, !runOnce, r.fetches, r.log⟩

/-- A recognized command-line option occurrence (slabtop.c:159-194).
`-h`, `-V` and unknown options exit before the loop and are not modelled. -/
inductive CmdOpt where
  | delayOpt (v : Int)
  | sortOpt (c : Nat)
  | onceOpt
deriving DecidableEq, Repr

/-- The globals set by `parse_opts`: `Delay` (initialized to 3,
slabtop.c:52), `Run_once` (initialized to 0), `Sort_item` (initialized to
`DEFAULT_SORT`, slabtop.c:57). -/
structure Globals where
  delay : Int
  runOnce : Bool
  sortItem : SlabnodeItem
deriving DecidableEq, Repr

/-- The initial values of the globals before option parsing. -/
def initGlobals : Globals := ⟨3, false, DEFAULT_SORT⟩

/-- Processing of one option in the `getopt_long` loop (slabtop.c:170-193):
`-d` stores the parsed delay, fatal (`none`) when below 1; `-s` stores
`set_sort_item(optarg[0])`; `-o` sets `Run_once = 1` and `Delay = 0`. -/
def parse_one (g : Globals) : CmdOpt → Option Globals
  | CmdOpt.delayOpt v =>
      if v < 1 then none else some { g with delay := v }
  | CmdOpt.sortOpt c => some { g with sortItem := set_sort_item c }
  | CmdOpt.onceOpt => some { g with delay := 0, runOnce := true }

/-- `parse_opts` (slabtop.c:159-194): fold `parse_one` over the options in
order; `none` models the `xerrx` exit on an illegal delay. -/
def parse_opts : Globals → List CmdOpt → Option Globals
  | g, [] => some g
  | g, o :: rest =>
      match parse_one g o with
      | none => none
      | some g' => parse_opts g' rest

/-- The loop-entry globals derived from the parsed options and the initial
`term_resize` call (slabtop.c:306-311). -/
def initialState (g : Globals) (geometry : Nat × Nat) : State :=
  ⟨g.delay, g.sortItem, geometry.1, geometry.2⟩

theorem set_sort_item_of_unrecognized (c : Nat)
    (h : recognizedSortChar c = false) : set_sort_item c = DEFAULT_SORT := by
  unfold recognizedSortChar at h
  simp only [Bool.or_eq_false_iff, decide_eq_false_iff_not] at h
  obtain ⟨⟨⟨⟨⟨⟨⟨⟨⟨h1, h2⟩, h3⟩, h4⟩, h5⟩, h6⟩, h7⟩, h8⟩, h9⟩, h10⟩ := h
  simp [set_sort_item, h1, h2, h3, h4, h5, h6, h7, h8, h9, h10]

/-- Claim C3: `term_resize` sets the tracked geometry to the fallback
(80, 24) exactly when the terminal-size query fails or reports at most 10
rows, and to the queried (columns, rows) otherwise; in particular a query
reporting 5 rows yields (80, 24). -/
theorem term_resize_fallback :
    term_resize none = (80, 24) ∧
    (∀ c r : Nat, r ≤ 10 → term_resize (some (c, r)) = (80, 24)) ∧
    (∀ c r : Nat, 10 < r → term_resize (some (c, r)) = (c, r)) ∧
    (∀ c : Nat, term_resize (some (c, 5)) = (80, 24)) := by
  refine ⟨rfl, ?_, ?_, ?_⟩
  · intro c r h
    simp only [term_resize]
    rw [if_neg (by omega)]
  · intro c r h
    simp only [term_resize]
    rw [if_pos h]
  · intro c
    simp [term_resize]

theorem term_resize_fallback_witness :
    (9 : Nat) ≤ 10 ∧ term_resize (some (132, 9)) = (80, 24) :=
  ⟨by decide, term_resize_fallback.2.1 132 9 (by decide)⟩

set_option maxRecDepth 4096 in
/-- Claim C4: `set_sort_item` is a total pure function on bytes: it
case-folds letters first, so resolving the uppercase form of any byte agrees
with resolving its lowercase form, and every byte outside the recognized
sort-key set (control characters, digits, punctuation included) resolves to
the default Sort Field rather than an error. -/
theorem set_sort_item_total_case_insensitive :
    (∀ c : Fin 256, recognizedSortChar c.val = false →
      set_sort_item c.val = DEFAULT_SORT) ∧
    (∀ c : Fin 256, set_sort_item (toupper c.val) = set_sort_item (tolower c.val)) := by
  constructor
  · intro c h
    exact set_sort_item_of_unrecognized c.val h
  · decide

theorem set_sort_item_total_case_insensitive_witness :
    recognizedSortChar 63 = false ∧ set_sort_item 63 = DEFAULT_SORT :=
  ⟨by decide, set_sort_item_total_case_insensitive.1 63 (by decide)⟩

/-- Claim C5: in every interactive render cycle the number of data rows
printed by the loop at slabtop.c:349-350 is exactly the minimum of
(screen rows − 8) and the cycle's live cache count, for any geometry the
tracker can produce. -/
theorem interactive_rows_clipped (q : Option (Nat × Nat)) (live : Nat) :
    detailRows ((term_resize q).2 : Int) (live : Int) =
      min ((term_resize q).2 - 8) live := by
  have hrows : 10 < (term_resize q).2 := by
    rcases q with _ | ⟨c, r⟩
    · simp [term_resize]
    · simp only [term_resize]
      split_ifs with h
      · simpa using h
      · simp
  rw [detailRows_eq]
  omega

/-- Claim C1, counterexample: with the Sort Field already set to NAME by a
first `-s n`, processing the unrecognized character `z` (122) does not leave
it unchanged — it overwrites it with the default (object count). -/
theorem unrecognized_sort_char_counterexample :
    parse_opts initGlobals [CmdOpt.sortOpt 110] =
      some ⟨3, false, SlabnodeItem.NAME⟩ ∧
    recognizedSortChar 122 = false ∧
    parse_opts initGlobals [CmdOpt.sortOpt 110, CmdOpt.sortOpt 122] =
      some ⟨3, false, SlabnodeItem.OBJS⟩ ∧
    SlabnodeItem.OBJS ≠ SlabnodeItem.NAME := by
  decide

/-- Claim C1 as amended: processing an unrecognized user-supplied sort
character always sets the current Sort Field to the default (object count),
regardless of the field's previous value — on the first parse and on every
later one, via the option parser and via the keystroke path alike. -/
theorem unrecognized_sort_char_resets_default (g : Globals) (s : State)
    (rc nr : Int) (c : Nat) (hc : recognizedSortChar c = false)
    (h81 : c ≠ 81) (h113 : c ≠ 113) (hnr : 0 ≤ nr) :
    parse_one g (CmdOpt.sortOpt c) = some { g with sortItem := DEFAULT_SORT } ∧
    (cycleBody false s rc ⟨nr, true, true, WaitOutcome.byte c, false⟩).sOut.sortItem =
      DEFAULT_SORT := by
  have hset := set_sort_item_of_unrecognized c hc
  constructor
  · simp [parse_one, hset]
  · simp [cycleBody, applySig, hset, not_lt.mpr hnr, h81, h113]

theorem unrecognized_sort_char_resets_default_witness :
    parse_one ⟨3, false, SlabnodeItem.NAME⟩ (CmdOpt.sortOpt 33) =
      some ⟨3, false, DEFAULT_SORT⟩ ∧
    (cycleBody false ⟨3, SlabnodeItem.NAME, 80, 24⟩ 0
      ⟨5, true, true, WaitOutcome.byte 33, false⟩).sOut.sortItem = DEFAULT_SORT :=
  unrecognized_sort_char_resets_default ⟨3, false, SlabnodeItem.NAME⟩
    ⟨3, SlabnodeItem.NAME, 80, 24⟩ 0 5 33 (by decide) (by decide) (by decide)
    (by decide)

/-- Claim C10: when neither `-d`/`--delay` nor `-o`/`--once` occurs among
the parsed options, option parsing succeeds and leaves `Delay` at its
initial value 3, which is the delay the interactive loop then starts with. -/
theorem default_delay_is_three (opts : List CmdOpt) (geometry : Nat × Nat)
    (h : ∀ o ∈ opts, (∀ v, o ≠ CmdOpt.delayOpt v) ∧ o ≠ CmdOpt.onceOpt) :
    ∃ g, parse_opts initGlobals opts = some g ∧ g.delay = 3 ∧
      (initialState g geometry).delay = 3 := by
  suffices hgen : ∀ g : Globals, ∃ g', parse_opts g opts = some g' ∧
      g'.delay = g.delay by
    obtain ⟨g', hg, hd⟩ := hgen initGlobals
    exact ⟨g', hg, hd, by simpa [initialState] using hd⟩
  induction opts with
  | nil => exact fun g => ⟨g, rfl, rfl⟩
  | cons o rest ih =>
      intro g
      have ho := h o (List.mem_cons_self o rest)
      cases o with
      | delayOpt v => exact absurd rfl (ho.1 v)
      | onceOpt => exact absurd rfl ho.2
      | sortOpt c =>
          have ih' := ih (fun o hm => h o (List.mem_cons_of_mem _ hm))
            { g with sortItem := set_sort_item c }
          obtain ⟨g', hg, hd⟩ := ih'
          exact ⟨g', by simpa [parse_opts, parse_one] using hg, hd⟩

theorem default_delay_is_three_witness :
    ∃ g, parse_opts initGlobals [CmdOpt.sortOpt 110] = some g ∧
      g.delay = 3 ∧ (initialState g (80, 24)).delay = 3 :=
  default_delay_is_three [CmdOpt.sortOpt 110] (80, 24) (by
    intro o ho
    rw [List.mem_singleton] at ho
    subst ho
    exact ⟨fun v => by simp, by simp⟩)

/-- Claim C2, code divergence: in interactive mode a failure of the summary
statistics chain (`procps_slabs_getchain` inside `print_summary`) exits the
process via `xerrx`, so the terminal-restore code after the loop
(slabtop.c:367-371) never runs on that fatal path; by contrast a fetch
failure breaks out of the loop and does restore the terminal. -/
theorem summary_failure_skips_terminal_restore :
    (mainRun false ⟨3, DEFAULT_SORT, 80, 24⟩
      [⟨5, true, false, WaitOutcome.timeout, false⟩]).terminalRestored = false ∧
    (mainRun false ⟨3, DEFAULT_SORT, 80, 24⟩
      [⟨5, true, false, WaitOutcome.timeout, false⟩]).rc = EXIT_FAILURE ∧
    (mainRun false ⟨3, DEFAULT_SORT, 80, 24⟩
      [⟨-1, true, true, WaitOutcome.timeout, false⟩]).terminalRestored = true ∧
    (mainRun false ⟨3, DEFAULT_SORT, 80, 24⟩
      [⟨-1, true, true, WaitOutcome.timeout, false⟩]).rc = EXIT_FAILURE := by
  decide

/-- Claim C6: the interrupt handler only zeroes the Delay Interval (leaving
the sort field and geometry untouched), and when an interrupt is delivered
during a cycle's bounded wait the do-while loop stops at the next
`while (Delay)` check: exactly the one in-flight fetch occurs and no further
fetch is started, whatever inputs the script would still supply. -/
theorem cycleBody_sigint_stops (s : State) (rc : Int) (inp : CycleInput)
    (h : inp.sigintDuringWait = true) :
    (cycleBody false s rc inp).brk = true ∨
    (cycleBody false s rc inp).fatal = true ∨
    (cycleBody false s rc inp).sOut.delay = 0 := by
  obtain ⟨fill, so, su, w, sig⟩ := inp
  replace h : sig = true := h
  subst h
  cases w <;> simp only [cycleBody, applySig, sigint_handler] <;>
    split_ifs <;> simp

theorem sigint_terminates_loop (s : State) (rc : Int) (inp : CycleInput)
    (rest : List CycleInput) (h : inp.sigintDuringWait = true) :
    sigint_handler s = { s with delay := 0 } ∧
    (mainLoop false s rc (inp :: rest)).fetches = 1 := by
  refine ⟨rfl, ?_⟩
  have hstop := cycleBody_sigint_stops s rc inp h
  by_cases hf : (cycleBody false s rc inp).fatal = true
  · simp [mainLoop, hf]
  · by_cases hb : (cycleBody false s rc inp).brk = true
    · simp [mainLoop, hf, hb]
    · have hd : (cycleBody false s rc inp).sOut.delay = 0 := by
        rcases hstop with h3 | h3 | h3 <;> simp_all
      simp [mainLoop, hf, hb, hd]

theorem sigint_terminates_loop_witness :
    sigint_handler ⟨3, DEFAULT_SORT, 80, 24⟩ =
      { delay := 0, sortItem := DEFAULT_SORT, cols := 80, rows := 24 } ∧
    (mainLoop false ⟨3, DEFAULT_SORT, 80, 24⟩ 0
      [⟨5, true, true, WaitOutcome.timeout, true⟩,
       ⟨5, true, true, WaitOutcome.timeout, false⟩]).fetches = 1 :=
  sigint_terminates_loop ⟨3, DEFAULT_SORT, 80, 24⟩ 0
    ⟨5, true, true, WaitOutcome.timeout, true⟩
    [⟨5, true, true, WaitOutcome.timeout, false⟩] rfl

/-- Claim C7: during the bounded wait of an interactive cycle, a read
failure/end-of-stream breaks out of the loop, a received byte breaks out of
the loop exactly when it is `Q` (81) or `q` (113), every other received byte
instead stores its resolved Sort Field and does not break, and a plain
timeout does not break either. -/
theorem wait_outcome_exit_paths (s : State) (rc nr : Int) (c : Nat)
    (hnr : 0 ≤ nr) :
    (cycleBody false s rc ⟨nr, true, true, WaitOutcome.readFail, false⟩).brk = true ∧
    ((cycleBody false s rc ⟨nr, true, true, WaitOutcome.byte c, false⟩).brk = true ↔
      c = 81 ∨ c = 113) ∧
    (¬(c = 81 ∨ c = 113) →
      (cycleBody false s rc ⟨nr, true, true, WaitOutcome.byte c, false⟩).brk = false ∧
      (cycleBody false s rc ⟨nr, true, true, WaitOutcome.byte c, false⟩).sOut.sortItem =
        set_sort_item c) ∧
    (cycleBody false s rc ⟨nr, true, true, WaitOutcome.timeout, false⟩).brk = false := by
  have hnr' : ¬ nr < 0 := not_lt.mpr hnr
  refine ⟨?_, ?_, ?_, ?_⟩ <;>
    by_cases hq : c = 81 ∨ c = 113 <;>
    simp [cycleBody, applySig, hnr', hq]

theorem wait_outcome_exit_paths_witness :
    (cycleBody false ⟨3, DEFAULT_SORT, 80, 24⟩ 0
      ⟨7, true, true, WaitOutcome.byte 117, false⟩).sOut.sortItem =
      set_sort_item 117 :=
  ((wait_outcome_exit_paths ⟨3, DEFAULT_SORT, 80, 24⟩ 0 7 117 (by decide)).2.2.1
    (by decide)).2

/-- Claim C9: one-shot mode performs exactly one fetch-sort-render cycle and
then terminates regardless of further available cycles; when the fetch
reports zero live caches the single cycle prints the summary and the header
with zero data rows and the process exits 0; a fill or sort failure in that
single cycle is fatal (exit 1) with no retry. -/
theorem one_shot_single_cycle (s : State) (inp : CycleInput)
    (rest : List CycleInput) :
    (mainRun true s (inp :: rest)).fetches = 1 ∧
    (inp.fillResult = 0 → inp.sortOk = true → inp.summaryOk = true →
      (mainRun true s (inp :: rest)).rc = EXIT_SUCCESS ∧
      (mainRun true s (inp :: rest)).log = [(true, true, 0)]) ∧
    ((inp.fillResult < 0 ∨ inp.sortOk = false) →
      (mainRun true s (inp :: rest)).rc = EXIT_FAILURE) := by
  obtain ⟨fill, so, su, w, sig⟩ := inp
  simp only [mainRun, mainLoop, cycleBody]
  split_ifs <;> (simp_all; try omega)

theorem one_shot_single_cycle_witness :
    (mainRun true ⟨0, DEFAULT_SORT, 80, 24⟩
      [⟨0, true, true, WaitOutcome.timeout, false⟩]).rc = EXIT_SUCCESS ∧
    (mainRun true ⟨0, DEFAULT_SORT, 80, 24⟩
      [⟨0, true, true, WaitOutcome.timeout, false⟩]).log = [(true, true, 0)] :=
  (one_shot_single_cycle ⟨0, DEFAULT_SORT, 80, 24⟩
    ⟨0, true, true, WaitOutcome.timeout, false⟩ []).2.1 rfl rfl rfl

end Slabtop
